import Mathlib

/-!
Verification of the `emcee` ensemble-sampler orchestration engine
(`src/emcee/ensemble.py`) against its natural-language specification.

The Python code is shallowly embedded: floating-point log-probabilities are
modelled by a classification type `FVal` (NaN / +inf / -inf / finite rational),
Python values returned by the user's log-density function by the nested type
`PyVal`, numpy `ndarray` blobs by their metadata (dtype and shape), and every
fallible operation returns `Except Err _`.  External collaborators that are
not part of the source file (numpy's PRNG algorithm, numpy dtype inference,
the storage backend) are modelled as explicit parameters or, where a claim
depends on them, as definitions taken from the specification text.
-/

deriving instance DecidableEq for Except

/-- Classification of an IEEE floating-point scalar as used by the sampler:
the code only ever *classifies* values (`np.isnan`, `np.isinf`) and passes
them through, so a finite value is carried as an exact rational. -/
inductive FVal where
  | nan : FVal
  | inf : FVal
  | ninf : FVal
  | fin (q : ℚ) : FVal
deriving DecidableEq

/-- Embeds `np.isnan` on one scalar. -/
def FVal.isnan : FVal → Bool
  | .nan => true
  | _ => false

/-- Embeds `np.isinf` on one scalar (true for both infinities, false for NaN). -/
def FVal.isinf : FVal → Bool
  | .inf => true
  | .ninf => true
  | _ => false

/-- Is this value a finite rational inside the closed unit interval? -/
def FVal.inUnit01 : FVal → Bool
  | .fin q => decide (0 ≤ q ∧ q ≤ 1)
  | _ => false

/-- A snapshot of the internal `numpy.random.mtrand.RandomState` as stored in a
`State`: either a well-formed snapshot (the PRNG's internal state, modelled as a
seed) or a malformed/foreign payload that `set_state` would reject. -/
inductive Snap where
  | valid (s : ℕ) : Snap
  | garbage (t : ℕ) : Snap
deriving DecidableEq

/-- A Python value returned by one unit of work of the user's log-density
function: either a bare scalar, or a (possibly nested) sequence. -/
inductive PyVal where
  | num (v : FVal) : PyVal
  | list (xs : List PyVal) : PyVal

/-- The Python exception classes caught by the structural blob detection. -/
inductive PyErr where
  | indexError : PyErr
  | typeError : PyErr
deriving DecidableEq

/-- The error taxonomy of the sampler (spec section 7); `py e` is an uncaught
Python-level exception escaping the result-unpacking code. -/
inductive Err where
  | shape : Err
  | invalidParam (isInf : Bool) : Err
  | invalidLogProb : Err
  | invalidThinning : Err
  | missingState : Err
  | py (e : PyErr) : Err
deriving DecidableEq

/-- A numpy dtype, kept abstract: the claims only compare dtypes for equality. -/
inductive DType where
  | float64 : DType
  | obj : DType
  | named (n : ℕ) : DType
deriving DecidableEq

/-- A blob batch as assembled by `compute_log_prob`: the `np.array` holding the
per-walker auxiliary data, modelled by its metadata.  `shape = none` models the
ragged case in which numpy cannot form a rectangular array. -/
structure BlobArr where
  dtype : DType
  shape : Option (List ℕ)
deriving DecidableEq

/-- The walker-ensemble `State`: coordinates, optional log-probabilities,
optional blob batch, and the RNG snapshot recorded when the state was made
(`None` for a state freshly built from a raw coordinate array). -/
structure EState where
  coords : List (List FVal)
  log_prob : Option (List FVal)
  blobs : Option BlobArr
  random_state : Option Snap
deriving DecidableEq

/-- A `Move` strategy object: opaque tunable parameters, a `propose` function
that consumes the sampler's private PRNG stream (seed in, seed out) and returns
the successor state with the per-walker acceptance mask, and the `tune` update
of the parameters. -/
structure Move where
  params : ℤ
  propose : ℤ → ℕ → EState → EState × List Bool × ℕ
  tuneF : ℤ → EState → List Bool → ℤ

instance : Inhabited Move :=
  ⟨⟨0, fun _ r st => (st, [], r), fun p _ _ => p⟩⟩

/-- Modelled from the spec: the storage Backend (spec section 4.5) is an
external collaborator whose code is not under `src/`; it accumulates one
checkpoint per `save_step`, counting stored steps in `iteration` and keeping
cumulative per-walker accepted counts. -/
structure Backend where
  nwalkers : ℕ
  ndim : ℕ
  iteration : ℕ
  accepted : List ℕ
  capacity : ℕ
  chain : List EState
  rstate : Option Snap
deriving DecidableEq

/-- Modelled from the spec: `Backend.grow(n, blobs_example)` preallocates
storage for `n` additional steps. -/
def growB (b : Backend) (n : ℕ) : Backend :=
  { b with capacity := b.capacity + n }

/-- Modelled from the spec: `Backend.save_step(state, accepted)` appends one
checkpoint: stored-step count, cumulative accepted counts, chain and the most
recent RNG snapshot. -/
def saveStep (b : Backend) (st : EState) (accepted : List Bool) : Backend :=
  { b with
    iteration := b.iteration + 1
    accepted := (b.accepted.zip accepted).map (fun p => p.1 + (if p.2 then 1 else 0))
    chain := b.chain ++ [st]
    rstate := st.random_state }

/-- A fresh (reset) backend: no stored steps, zero accepted counts. -/
def Backend.fresh (nwalkers ndim : ℕ) : Backend :=
  ⟨nwalkers, ndim, 0, List.replicate nwalkers 0, 0, [], none⟩

/-- The external numpy PRNG operations the orchestrator calls directly:
`choiceIdx seed weights` models `RandomState.choice(moves, p=weights)`,
returning the chosen index and the advanced stream. The concrete PRNG
algorithm lives in numpy, outside the source file, so it is a parameter. -/
structure Prng where
  choiceIdx : ℕ → List ℚ → ℕ × ℕ

/-- The `EnsembleSampler` object: its attribute dictionary as set up by
`__init__`.  `fn`/`fnVec` are the wrapped user log-density function in
per-walker and vectorized form; `inferDtype` models numpy's dtype inference
`np.atleast_1d(blob[0]).dtype` (with its `ValueError` fallback to the object
dtype folded in), which is numpy-external. -/
structure Sampler where
  nwalkers : ℕ
  ndim : ℕ
  pool : Option ℕ
  vectorize : Bool
  blobs_dtype : Option DType
  moves : List Move
  weights : List ℚ
  backend : Backend
  rngSeed : ℕ
  prev : Option EState
  fn : List FVal → PyVal
  fnVec : List (List FVal) → List PyVal
  inferDtype : List PyVal → DType

/-- Python `int()` applied to a rational number: truncation toward zero. -/
def pyInt (q : ℚ) : ℤ :=
  if q < 0 then -(((-q).num.toNat / (-q).den : ℕ) : ℤ)
  else ((q.num.toNat / q.den : ℕ) : ℤ)

/-- Embeds `RandomState.set_state(snap)`: numpy validates the payload and
raises on a malformed or missing snapshot, otherwise installs it. -/
def rngSetState (snap : Option Snap) : Except Unit ℕ :=
  match snap with
  | some (.valid s) => .ok s
  | _ => .error ()

/-- Embeds the `random_state` property setter (`ensemble.py` lines 165-175):
try to set the state of the PRNG but fail silently if it does not work. -/
def setRandomState (r : ℕ) (snap : Option Snap) : ℕ :=
  match rngSetState snap with
  | .ok s => s
  | .error _ => r

/-- Embeds `np.any(np.isinf(p))` over the coordinate batch. -/
def anyInfCoord (p : List (List FVal)) : Bool :=
  p.any (fun row => row.any FVal.isinf)

/-- Embeds `np.any(np.isnan(p))` over the coordinate batch. -/
def anyNaNCoord (p : List (List FVal)) : Bool :=
  p.any (fun row => row.any FVal.isnan)

/-- Embeds `float(l)`: succeeds on a scalar, raises `TypeError` on a sequence. -/
def pyFloat : PyVal → Except PyErr FVal
  | .num v => .ok v
  | .list _ => .error .typeError

/-- Embeds `l[0]`: `TypeError` on a scalar, `IndexError` on an empty sequence. -/
def pyIndex0 : PyVal → Except PyErr PyVal
  | .num _ => .error .typeError
  | .list [] => .error .indexError
  | .list (h :: _) => .ok h

/-- Embeds `l[1:]` for the values reachable after `l[0]` succeeded. -/
def pyTail : PyVal → List PyVal
  | .num _ => []
  | .list l => l.tail

/-- Embeds the comprehension `[float(l[0]) for l in results]`: sequential, the
first raised `IndexError`/`TypeError` aborts the whole comprehension. -/
def unpackSeq : List PyVal → Except PyErr (List FVal)
  | [] => .ok []
  | l :: rest =>
    match pyIndex0 l with
    | .error e => .error e
    | .ok h =>
      match pyFloat h with
      | .error e => .error e
      | .ok v =>
        match unpackSeq rest with
        | .error e => .error e
        | .ok vs => .ok (v :: vs)

/-- Embeds the fallback comprehension `[float(l) for l in results]`. -/
def unpackScalar : List PyVal → Except PyErr (List FVal)
  | [] => .ok []
  | l :: rest =>
    match pyFloat l with
    | .error e => .error e
    | .ok v =>
      match unpackScalar rest with
      | .error e => .error e
      | .ok vs => .ok (v :: vs)

mutual
/-- The shape of the numpy array built from a nested Python value: `none` when
the nesting is ragged so no rectangular shape exists. -/
def pyShape : PyVal → Option (List ℕ)
  | .num _ => some []
  | .list xs =>
    match pyShapes xs with
    | none => none
    | some [] => some [0]
    | some (s :: rest) => if rest.all (fun t => t = s) then some (xs.length :: s) else none

/-- Shapes of a list of nested Python values, `none` as soon as one is ragged. -/
def pyShapes : List PyVal → Option (List (List ℕ))
  | [] => some []
  | x :: xs =>
    match pyShape x, pyShapes xs with
    | some s, some ss => some (s :: ss)
    | _, _ => none
end

/-- The shape of `np.array(blob)` where `blob` is the per-walker list of
`l[1:]` tails. -/
def blobShape (blob : List (List PyVal)) : Option (List ℕ) :=
  pyShape (.list (blob.map .list))

/-- Embeds the squeeze step of `compute_log_prob` (`ensemble.py` 443-448): in
`shape[1:]` every axis of extent 1 is removed (`axes = arange[shape == 1] + 1`,
then `np.squeeze(blob, axes)`); the walker axis is kept. -/
def squeezeInner : List ℕ → List ℕ
  | [] => []
  | s0 :: rest => s0 :: rest.filter (fun d => d != 1)

/-- Dispatches the log-density evaluation (`ensemble.py` 411-424): one batch
call when vectorized, otherwise one call per walker through `map`; the parallel
`pool.map` recombines results in walker order, so it has the same value. -/
def runEvaluator (smp : Sampler) (p : List (List FVal)) : List PyVal :=
  if smp.vectorize then smp.fnVec p else p.map smp.fn

/-- Embeds the result-unpacking half of `compute_log_prob` (`ensemble.py`
426-454): the structural scalar-vs-sequence detection with its
`(IndexError, TypeError)` fallback, the blob dtype selection (the configured
`blobs_dtype` if present, otherwise numpy inference on `blob[0]`, which
raises an uncaught `IndexError` for an empty result list), the
singleton-axis squeeze, and the output-side NaN guard. -/
def unpackPhase (smp : Sampler) (results : List PyVal) :
    Except Err (List FVal × Option BlobArr) :=
  match unpackSeq results with
  | .ok log_prob =>
    let blob := results.map pyTail
    let dtE : Except Err DType :=
      match smp.blobs_dtype with
      | some d => .ok d
      | none =>
        match blob with
        | [] => .error (.py .indexError)
        | b0 :: _ => .ok (smp.inferDtype b0)
    match dtE with
    | .error e => .error e
    | .ok dt =>
      let blobArr : BlobArr := ⟨dt, (blobShape blob).map squeezeInner⟩
      if log_prob.any FVal.isnan then .error .invalidLogProb
      else .ok (log_prob, some blobArr)
  | .error _ =>
    match unpackScalar results with
    | .ok log_prob =>
      if log_prob.any FVal.isnan then .error .invalidLogProb
      else .ok (log_prob, none)
    | .error e => .error (.py e)

/-- Embeds `EnsembleSampler.compute_log_prob` (`ensemble.py` 388-454):
input-side infinity/NaN guards, evaluator dispatch, then the unpack phase. -/
def compute_log_prob (smp : Sampler) (p : List (List FVal)) :
    Except Err (List FVal × Option BlobArr) :=
  if anyInfCoord p then .error (.invalidParam true)
  else if anyNaNCoord p then .error (.invalidParam false)
  else unpackPhase smp (runEvaluator smp p)

/-- The log-probability vector produced by the structural try/except
unpacking, independent of the blob bookkeeping: the result of
`[float(l[0]) for l in results]` or, if that raises `IndexError`/`TypeError`,
of the fallback `[float(l) for l in results]`. -/
def unpackLogProb (results : List PyVal) : Except PyErr (List FVal) :=
  match unpackSeq results with
  | .ok lp => .ok lp
  | .error _ => unpackScalar results

/-- Embeds the shape check `np.shape(state.coords) != (self.nwalkers, self.ndim)`. -/
def shapeOkB (smp : Sampler) (coords : List (List FVal)) : Bool :=
  coords.length == smp.nwalkers && coords.all (fun row => row.length == smp.ndim)

/-- The mutable state of the sampling loop (`ensemble.py` 332-350): the current
ensemble state, the private PRNG stream, the round counter `i`, the move list
(moves are stateful because `tune` may adapt their parameters), the backend,
and the running counts of proposal rounds and `save_step` calls. -/
structure LoopSt where
  state : EState
  rng : ℕ
  i : ℕ
  moves : List Move
  backend : Backend
  rounds : ℕ
  saves : ℕ

/-- One proposal round of the sampling loop (`ensemble.py` 335-350): draw a
move from the weighted schedule using the private stream, call `propose`,
record the PRNG snapshot into the new state, optionally tune the move, and
persist the step to the backend at every `checkpoint_step`-th round. -/
def oneRound (prng : Prng) (weights : List ℚ) (tuneFlag store : Bool)
    (checkpoint_step : ℕ) (ls : LoopSt) : LoopSt :=
  let c := prng.choiceIdx ls.rng weights
  let m := ls.moves.getD c.1 default
  let pr := m.propose m.params c.2 ls.state
  let st2 := { pr.1 with random_state := some (.valid pr.2.2) }
  let moves' :=
    if tuneFlag then
      ls.moves.set c.1 { m with params := m.tuneF m.params st2 pr.2.1 }
    else ls.moves
  let bs :=
    if store && ((ls.i + 1) % checkpoint_step == 0) then
      (saveStep ls.backend st2 pr.2.1, ls.saves + 1)
    else (ls.backend, ls.saves)
  ⟨st2, pr.2.2, ls.i + 1, moves', bs.1, ls.rounds + 1, bs.2⟩

/-- The inner `for _ in range(yield_step)` loop. -/
def innerLoop (prng : Prng) (weights : List ℚ) (tuneFlag store : Bool)
    (checkpoint_step : ℕ) : ℕ → LoopSt → LoopSt
  | 0, ls => ls
  | m + 1, ls =>
    innerLoop prng weights tuneFlag store checkpoint_step m
      (oneRound prng weights tuneFlag store checkpoint_step ls)

/-- The outer `for _ in range(iterations)` loop; also returns the list of
states yielded by the generator (one after each inner block). -/
def outerLoop (prng : Prng) (weights : List ℚ) (tuneFlag store : Bool)
    (checkpoint_step yield_step : ℕ) : ℕ → LoopSt → LoopSt × List EState
  | 0, ls => (ls, [])
  | n + 1, ls =>
    let ls1 := innerLoop prng weights tuneFlag store checkpoint_step yield_step ls
    let r := outerLoop prng weights tuneFlag store checkpoint_step yield_step n ls1
    (r.1, ls1.state :: r.2)

/-- The observable outcome of a fully consumed `sample()` generator: the
yielded states, the number of proposal rounds, the number of `save_step`
calls, the final backend, and the final private-stream state. -/
structure SampleOut where
  yields : List EState
  rounds : ℕ
  saves : ℕ
  backend : Backend
  finalRng : ℕ
deriving DecidableEq

/-- Packages the loop phase of `sample()` once validation has passed. -/
def runLoop (prng : Prng) (smp : Sampler) (st : EState) (r0 : ℕ)
    (tuneFlag store : Bool) (checkpoint_step yield_step iters : ℕ)
    (b0 : Backend) : Except Err SampleOut :=
  let ls0 : LoopSt := ⟨st, r0, 0, smp.moves, b0, 0, 0⟩
  let r := outerLoop prng smp.weights tuneFlag store checkpoint_step yield_step iters ls0
  .ok ⟨r.2, r.1.rounds, r.1.saves, r.1.backend, r.1.rng⟩

/-- Embeds `EnsembleSampler.sample` (`ensemble.py` 195-354) for a full
consumption of the generator.  Mirrored faithfully: dimension check, silent
restore of the private stream from the initial state's snapshot, lazy
computation of the initial log-probabilities, their shape and NaN checks,
validation of the (possibly deprecated) thinning argument, backend `grow`,
and the nested proposal loop.  The covariance condition-number warning
(lines 246-253) only emits a `RuntimeWarning` and changes no observable
state, and the deprecated `log_prob0`/`rstate0`/`blobs0` arguments are not
passed by any claim, so they are elided. -/
def sampleGen (prng : Prng) (smp : Sampler) (initial_state : EState)
    (iterations : ℚ) (tuneFlag : Bool) (thin_by : ℚ) (thin : Option ℚ)
    (store : Bool) : Except Err SampleOut :=
  let state := initial_state
  if shapeOkB smp state.coords then
    let r0 := setRandomState smp.rngSeed state.random_state
    let initLp : Except Err (List FVal × Option BlobArr) :=
      match state.log_prob with
      | some lp => .ok (lp, state.blobs)
      | none => compute_log_prob smp state.coords
    match initLp with
    | .error e => .error e
    | .ok (lp, bl) =>
      if lp.length == smp.nwalkers then
        if lp.any FVal.isnan then .error .invalidLogProb
        else
          let st := { state with log_prob := some lp, blobs := bl }
          match thin with
          | some t =>
            let t' := pyInt t
            if t' ≤ 0 then .error .invalidThinning
            else
              let cs := t'.toNat
              let iters := (pyInt iterations).toNat
              let b0 := if store then growB smp.backend (iters / cs) else smp.backend
              runLoop prng smp st r0 tuneFlag store cs 1 iters b0
          | none =>
            let tb := pyInt thin_by
            if tb ≤ 0 then .error .invalidThinning
            else
              let cs := tb.toNat
              let iters := (pyInt iterations).toNat
              let b0 := if store then growB smp.backend iters else smp.backend
              runLoop prng smp st r0 tuneFlag store cs cs iters b0
      else .error .shape
  else .error .shape

/-- `sample()` together with the ambient (module-global) numpy stream: the
source touches `np.random` only inside `__init__`, never in `sample`, so the
ambient stream passes through a sampling run unread and unchanged. -/
def sampleGenWorld (prng : Prng) (smp : Sampler) (initial_state : EState)
    (iterations : ℚ) (tuneFlag : Bool) (thin_by : ℚ) (thin : Option ℚ)
    (store : Bool) (globalSeed : ℕ) : Except Err SampleOut × ℕ :=
  (sampleGen prng smp initial_state iterations tuneFlag thin_by thin store,
   globalSeed)

/-- Embeds `EnsembleSampler.run_mcmc` (`ensemble.py` 356-386): resolve the
initial state (falling back to the remembered `_previous_state`), drive the
generator to completion, remember the final result, and return it together
with the updated sampler object. -/
def run_mcmc (prng : Prng) (smp : Sampler) (initial_state : Option EState)
    (nsteps : ℚ) (tuneFlag : Bool) (thin_by : ℚ) (thin : Option ℚ)
    (store : Bool) : Except Err (Option EState × Sampler) :=
  match initial_state with
  | none =>
    match smp.prev with
    | none => .error .missingState
    | some p =>
      match sampleGen prng smp p nsteps tuneFlag thin_by thin store with
      | .error e => .error e
      | .ok out =>
        let results := out.yields.getLast?
        .ok (results,
          { smp with prev := results, backend := out.backend, rngSeed := out.finalRng })
  | some x =>
    match sampleGen prng smp x nsteps tuneFlag thin_by thin store with
    | .error e => .error e
    | .ok out =>
      let results := out.yields.getLast?
      .ok (results,
        { smp with prev := results, backend := out.backend, rngSeed := out.finalRng })

/-- Embeds elementwise division of the numpy `accepted` array by the Python
float `float(iteration)` (numpy semantics: `0/0` is NaN, `a/0` with `a > 0`
is infinity, both with a warning rather than an exception). -/
def npDivNat (a n : ℕ) : FVal :=
  if n = 0 then (if a = 0 then .nan else .inf) else .fin ((a : ℚ) / (n : ℚ))

/-- Embeds the `acceptance_fraction` property (`ensemble.py` 456-459):
`self.backend.accepted / float(self.backend.iteration)`. -/
def acceptance_fraction (smp : Sampler) : List FVal :=
  smp.backend.accepted.map (fun a => npDivNat a smp.backend.iteration)

/-- Embeds `EnsembleSampler.__getstate__` (`ensemble.py` 188-193): `d` is
`self.__dict__` itself, not a copy, so setting `d["pool"] = None` mutates the
live sampler; the first component is the returned dictionary and the second
the sampler's attribute dictionary after the call — they are the same object. -/
def getstate (smp : Sampler) : Sampler × Sampler :=
  let d := { smp with pool := none }
  (d, d)

/-- Embeds `_FunctionWrapper` (`ensemble.py` 527-551): the picklable unit of
work binding the user function with its fixed extra arguments.  The user
function itself may raise; its exceptions are opaque codes. -/
structure FunctionWrapper where
  f : List FVal → Except ℕ PyVal
  args : List ℤ
  kwargs : List (ℕ × ℤ)

/-- One diagnostic line printed by `_FunctionWrapper.__call__` on failure:
the offending parameters together with the bound extra arguments. -/
structure LogEntry where
  params : List FVal
  args : List ℤ
  kwargs : List (ℕ × ℤ)
deriving DecidableEq

/-- Embeds `_FunctionWrapper.__call__`: evaluate `f(x, *args, **kwargs)`; on
an exception, print the offending parameters and arguments and re-raise the
exception unchanged.  Returns the outcome and the printed diagnostics. -/
def FunctionWrapper.call (w : FunctionWrapper) (x : List FVal) :
    Except ℕ PyVal × List LogEntry :=
  match w.f x with
  | .ok v => (.ok v, [])
  | .error e => (.error e, [⟨x, w.args, w.kwargs⟩])

/-! ## Helper lemmas about the sampling loop -/

theorem oneRound_i (prng : Prng) (w : List ℚ) (tf store : Bool) (cs : ℕ)
    (ls : LoopSt) : (oneRound prng w tf store cs ls).i = ls.i + 1 := rfl

theorem oneRound_rounds (prng : Prng) (w : List ℚ) (tf store : Bool) (cs : ℕ)
    (ls : LoopSt) : (oneRound prng w tf store cs ls).rounds = ls.rounds + 1 := rfl

theorem oneRound_saves (prng : Prng) (w : List ℚ) (tf store : Bool) (cs : ℕ)
    (ls : LoopSt) :
    (oneRound prng w tf store cs ls).saves =
      ls.saves + (if store && ((ls.i + 1) % cs == 0) then 1 else 0) := by
  unfold oneRound
  cases h : store && ((ls.i + 1) % cs == 0) <;> simp [h]

theorem innerLoop_i (prng : Prng) (w : List ℚ) (tf store : Bool) (cs : ℕ)
    (m : ℕ) : ∀ ls : LoopSt, (innerLoop prng w tf store cs m ls).i = ls.i + m := by
  induction m with
  | zero => intro ls; simp [innerLoop]
  | succ m ih =>
    intro ls
    rw [innerLoop, ih, oneRound_i]
    omega

theorem innerLoop_rounds (prng : Prng) (w : List ℚ) (tf store : Bool) (cs : ℕ)
    (m : ℕ) : ∀ ls : LoopSt,
    (innerLoop prng w tf store cs m ls).rounds = ls.rounds + m := by
  induction m with
  | zero => intro ls; simp [innerLoop]
  | succ m ih =>
    intro ls
    rw [innerLoop, ih, oneRound_rounds]
    omega

theorem innerLoop_saves (prng : Prng) (w : List ℚ) (tf store : Bool) (cs : ℕ)
    (m : ℕ) : ∀ ls : LoopSt,
    (innerLoop prng w tf store cs m ls).saves =
      ls.saves + (if store then (ls.i + m) / cs - ls.i / cs else 0) := by
  induction m with
  | zero => intro ls; cases store <;> simp [innerLoop]
  | succ m ih =>
    intro ls
    rw [innerLoop, ih, oneRound_saves, oneRound_i]
    cases store with
    | false => simp
    | true =>
      simp only [Bool.true_and, if_true, beq_iff_eq]
      have hrw : ls.i + 1 + m = ls.i + (m + 1) := by omega
      rw [hrw]
      have hd : (ls.i + 1) / cs = ls.i / cs + if cs ∣ ls.i + 1 then 1 else 0 :=
        Nat.succ_div _ _
      have hmono : (ls.i + 1) / cs ≤ (ls.i + (m + 1)) / cs :=
        Nat.div_le_div_right (by omega)
      have hmono2 : ls.i / cs ≤ (ls.i + 1) / cs :=
        Nat.div_le_div_right (by omega)
      by_cases hz : (ls.i + 1) % cs = 0
      · rw [if_pos (Nat.dvd_iff_mod_eq_zero.mpr hz)] at hd
        rw [if_pos hz]
        omega
      · rw [if_neg (fun hdvd => hz (Nat.dvd_iff_mod_eq_zero.mp hdvd))] at hd
        rw [if_neg hz]
        omega

theorem outerLoop_spec (prng : Prng) (w : List ℚ) (tf store : Bool) (k : ℕ)
    (hk : 0 < k) (n : ℕ) : ∀ (c : ℕ) (ls : LoopSt), ls.i = c * k →
    (outerLoop prng w tf store k k n ls).2.length = n ∧
    (outerLoop prng w tf store k k n ls).1.rounds = ls.rounds + n * k ∧
    (outerLoop prng w tf store k k n ls).1.saves =
      ls.saves + (if store then n else 0) := by
  induction n with
  | zero => intro c ls h; cases store <;> simp [outerLoop]
  | succ n ih =>
    intro c ls h
    have h1i : (innerLoop prng w tf store k k ls).i = (c + 1) * k := by
      rw [innerLoop_i, h]; ring
    have h1r : (innerLoop prng w tf store k k ls).rounds = ls.rounds + k :=
      innerLoop_rounds ..
    have h1s : (innerLoop prng w tf store k k ls).saves =
        ls.saves + (if store then 1 else 0) := by
      rw [innerLoop_saves prng w tf store k k ls, h]
      have hc1 : (c * k + k) / k = c + 1 := by
        have : c * k + k = (c + 1) * k := by ring
        rw [this, Nat.mul_div_cancel _ hk]
      have hc0 : c * k / k = c := Nat.mul_div_cancel _ hk
      rw [hc1, hc0]
      cases store <;> simp
    obtain ⟨ihl, ihr, ihs⟩ := ih (c + 1) (innerLoop prng w tf store k k ls) h1i
    refine ⟨?_, ?_, ?_⟩
    · simp only [outerLoop, List.length_cons, ihl]
    · simp only [outerLoop, ihr, h1r]; ring
    · simp only [outerLoop, ihs, h1s]; cases store <;> simp <;> omega

/-! ## Arithmetic facts about Python `int()` truncation -/

theorem pyInt_natCast (n : ℕ) : pyInt (n : ℚ) = (n : ℤ) := by
  unfold pyInt
  rw [if_neg (not_lt.mpr (by positivity))]
  simp

theorem pyInt_natCast_toNat (n : ℕ) : (pyInt (n : ℚ)).toNat = n := by
  rw [pyInt_natCast]; simp

/-- Under passing validation (matching shapes, supplied NaN-free
log-probabilities, a positive integer `thin_by`), `sample` reaches its
proposal loop, with `yield_step = checkpoint_step = thin_by` and a backend
grown by `iterations` slots when storing. -/
theorem sampleGen_reduce (prng : Prng) (smp : Sampler)
    (coords : List (List FVal)) (lp : List FVal) (bl : Option BlobArr)
    (rs : Option Snap) (tf store : Bool) (n k : ℕ)
    (hshape : shapeOkB smp coords = true)
    (hlen : lp.length = smp.nwalkers)
    (hnan : lp.any FVal.isnan = false)
    (hk : 1 ≤ k) :
    sampleGen prng smp ⟨coords, some lp, bl, rs⟩ (n : ℚ) tf (k : ℚ) none store =
      runLoop prng smp ⟨coords, some lp, bl, rs⟩
        (setRandomState smp.rngSeed rs) tf store k k n
        (if store then growB smp.backend n else smp.backend) := by
  unfold sampleGen
  rw [if_pos hshape]
  simp only [hlen, beq_self_eq_true, if_true, hnan, Bool.false_eq_true, if_false,
    pyInt_natCast, Int.toNat_natCast]
  rw [if_neg (by omega : ¬ ((k : ℤ) ≤ 0))]

/-- The counting behaviour of a full consumption of `sample` in the
`thin = None` path: `n·k` proposal rounds, `n` yields, `n` saves when
storing. -/
theorem sampleGen_counts (prng : Prng) (smp : Sampler) (st : EState)
    (lp : List FVal) (tuneFlag store : Bool) (n k : ℕ)
    (hshape : shapeOkB smp st.coords = true)
    (hlp : st.log_prob = some lp)
    (hlen : lp.length = smp.nwalkers)
    (hnan : lp.any FVal.isnan = false)
    (hk : 1 ≤ k) :
    ∃ out, sampleGen prng smp st (n : ℚ) tuneFlag (k : ℚ) none store = .ok out ∧
      out.rounds = n * k ∧ out.yields.length = n ∧
      out.saves = (if store then n else 0) := by
  obtain ⟨coords, lpOpt, bl, rs⟩ := st
  cases hlp
  rw [sampleGen_reduce prng smp coords lp bl rs tuneFlag store n k hshape hlen hnan hk]
  unfold runLoop
  obtain ⟨hl, hr, hs⟩ :=
    outerLoop_spec prng smp.weights tuneFlag store k (by omega) n 0
      ⟨⟨coords, some lp, bl, rs⟩, setRandomState smp.rngSeed rs, 0, smp.moves,
        (if store then growB smp.backend n else smp.backend), 0, 0⟩
      (by simp)
  exact ⟨_, rfl, by simpa using hr, hl, by simpa using hs⟩

/-- C1: with `iterations = n ≥ 1` and `thin_by = k ≥ 1` (and no deprecated
`thin`), a full consumption of the `sample` generator performs exactly `n·k`
proposal rounds (each drawing one move, calling `propose` and recording the
RNG snapshot), yields exactly `n` states, and calls `save_step` exactly `n`
times when `store` is true and never otherwise. -/
theorem c1_thin_by_counts (prng : Prng) (smp : Sampler) (st : EState)
    (lp : List FVal) (tuneFlag store : Bool) (n k : ℕ)
    (hshape : shapeOkB smp st.coords = true)
    (hlp : st.log_prob = some lp)
    (hlen : lp.length = smp.nwalkers)
    (hnan : lp.any FVal.isnan = false)
    (hn : 1 ≤ n) (hk : 1 ≤ k) :
    ∃ out, sampleGen prng smp st (n : ℚ) tuneFlag (k : ℚ) none store = .ok out ∧
      out.rounds = n * k ∧ out.yields.length = n ∧
      out.saves = (if store then n else 0) :=
  sampleGen_counts prng smp st lp tuneFlag store n k hshape hlp hlen hnan hk

/-! ## Concrete instances used to instantiate the theorems -/

/-- A concrete model of the numpy PRNG used in witnesses. -/
def natPrng : Prng := ⟨fun s w => (s % (max 1 w.length), s + 1)⟩

/-- A concrete move: keeps the ensemble fixed, accepts no walker, advances
the stream. -/
def constMove : Move :=
  ⟨0, fun _ r st => (st, [false, false], r + 1), fun p _ _ => p⟩

/-- A concrete two-walker, one-dimensional sampler. -/
def demoSmp : Sampler :=
  ⟨2, 1, none, false, none, [constMove], [1], Backend.fresh 2 1, 7, none,
    fun _ => .num (.fin 0), fun _ => [], fun _ => .float64⟩

/-- A concrete valid initial state for `demoSmp`, carrying log-probabilities
and a valid RNG snapshot. -/
def demoState : EState :=
  ⟨[[.fin 0], [.fin 1]], some [.fin 0, .fin 0], none, some (.valid 5)⟩

/-- C1 witness at `n = 2`, `k = 3`, `store = true`. -/
theorem c1_thin_by_counts_witness :
    (shapeOkB demoSmp demoState.coords = true ∧
     demoState.log_prob = some [.fin 0, .fin 0] ∧
     ([FVal.fin 0, .fin 0].length = demoSmp.nwalkers) ∧
     ([FVal.fin 0, .fin 0].any FVal.isnan = false) ∧ 1 ≤ 2 ∧ 1 ≤ 3) ∧
    (∃ out, sampleGen natPrng demoSmp demoState ((2 : ℕ) : ℚ) false ((3 : ℕ) : ℚ)
        none true = .ok out ∧
      out.rounds = 2 * 3 ∧ out.yields.length = 2 ∧
      out.saves = (if true then 2 else 0)) :=
  ⟨⟨by decide, by decide, by decide, by decide, by decide, by decide⟩,
   c1_thin_by_counts natPrng demoSmp demoState [.fin 0, .fin 0] false true 2 3
     (by decide) (by decide) (by decide) (by decide) (by decide) (by decide)⟩

theorem exists_getLast?_of_ne_nil {α : Type} :
    ∀ (l : List α), l ≠ [] → ∃ a, l.getLast? = some a
  | [a], _ => ⟨a, rfl⟩
  | a :: b :: t, _ => by
    obtain ⟨x, hx⟩ := exists_getLast?_of_ne_nil (b :: t) (by simp)
    exact ⟨x, by rw [List.getLast?_cons_cons, hx]⟩

/-- C2: `sample()` is deterministic given the RNG snapshot carried by the
initial state: whatever the sampler's own stream position (`r1` vs `r2`) and
whatever the ambient global stream (`g1` vs `g2`), a valid snapshot in the
initial state silently resets the private stream, so two runs produce
identical results — identical yielded coordinates, log-probabilities and RNG
snapshots — and the ambient stream is never consumed. -/
theorem c2_rng_determinism (prng : Prng) (smp : Sampler) (st : EState)
    (iterations : ℚ) (tuneFlag : Bool) (thin_by : ℚ) (thin : Option ℚ)
    (store : Bool) (r1 r2 g1 g2 s : ℕ)
    (h : st.random_state = some (.valid s)) :
    (sampleGenWorld prng { smp with rngSeed := r1 } st iterations tuneFlag
        thin_by thin store g1).1 =
      (sampleGenWorld prng { smp with rngSeed := r2 } st iterations tuneFlag
        thin_by thin store g2).1 ∧
    (sampleGenWorld prng { smp with rngSeed := r1 } st iterations tuneFlag
        thin_by thin store g1).2 = g1 := by
  obtain ⟨coords, lpOpt, bl, rs⟩ := st
  cases h
  exact ⟨rfl, rfl⟩

/-- C2 witness: two runs from `demoState` with different private-stream
positions and different ambient seeds agree. -/
theorem c2_rng_determinism_witness :
    demoState.random_state = some (.valid 5) ∧
    (sampleGenWorld natPrng { demoSmp with rngSeed := 11 } demoState 2 false 1
        none true 100).1 =
      (sampleGenWorld natPrng { demoSmp with rngSeed := 22 } demoState 2 false 1
        none true 200).1 ∧
    (sampleGenWorld natPrng { demoSmp with rngSeed := 11 } demoState 2 false 1
        none true 100).2 = 100 :=
  ⟨by decide,
   (c2_rng_determinism natPrng demoSmp demoState 2 false 1 none true 11 22 100
      200 5 (by decide)).1,
   (c2_rng_determinism natPrng demoSmp demoState 2 false 1 none true 11 22 100
      200 5 (by decide)).2⟩

/-- C3: `run_mcmc` drives the `sample` generator to completion and returns
exactly the final yielded state, remembering it in `_previous_state` so a
later `run_mcmc(None, m)` behaves exactly like a call that passes the
remembered state explicitly; and with no remembered state,
`run_mcmc(None, m)` fails with the missing-state error. -/
theorem c3_run_mcmc_resume (prng : Prng) (smp : Sampler) (st : EState)
    (lp : List FVal) (tuneFlag store : Bool) (n : ℕ) (m : ℚ) (k : ℕ)
    (hshape : shapeOkB smp st.coords = true)
    (hlp : st.log_prob = some lp)
    (hlen : lp.length = smp.nwalkers)
    (hnan : lp.any FVal.isnan = false)
    (hn : 1 ≤ n) (hk : 1 ≤ k) :
    (smp.prev = none →
      run_mcmc prng smp none m tuneFlag (k : ℚ) none store = .error .missingState) ∧
    (∀ p, smp.prev = some p →
      run_mcmc prng smp none m tuneFlag (k : ℚ) none store =
        run_mcmc prng smp (some p) m tuneFlag (k : ℚ) none store) ∧
    (∃ out, sampleGen prng smp st (n : ℚ) tuneFlag (k : ℚ) none store = .ok out ∧
      out.yields ≠ [] ∧
      (∃ last, out.yields.getLast? = some last) ∧
      run_mcmc prng smp (some st) (n : ℚ) tuneFlag (k : ℚ) none store =
        .ok (out.yields.getLast?,
          { smp with prev := out.yields.getLast?, backend := out.backend,
                     rngSeed := out.finalRng })) := by
  refine ⟨?_, ?_, ?_⟩
  · intro h
    unfold run_mcmc
    rw [h]
  · intro p hp
    unfold run_mcmc
    rw [hp]
  · obtain ⟨out, hok, hr, hl, hs⟩ :=
      sampleGen_counts prng smp st lp tuneFlag store n k hshape hlp hlen hnan hk
    have hne : out.yields ≠ [] := by
      intro hnil
      rw [hnil] at hl
      simp at hl
      omega
    refine ⟨out, hok, hne, exists_getLast?_of_ne_nil _ hne, ?_⟩
    simp only [run_mcmc, hok]

/-- C3 witness at `demoSmp` (which has no remembered state) and `demoState`,
with `n = 1`, `m = 2`, `k = 1`. -/
theorem c3_run_mcmc_resume_witness :
    (shapeOkB demoSmp demoState.coords = true ∧
     demoState.log_prob = some [.fin 0, .fin 0] ∧
     [FVal.fin 0, .fin 0].length = demoSmp.nwalkers ∧
     [FVal.fin 0, .fin 0].any FVal.isnan = false ∧ 1 ≤ 1) ∧
    ((demoSmp.prev = none →
      run_mcmc natPrng demoSmp none (2 : ℚ) false ((1 : ℕ) : ℚ) none true =
        .error .missingState) ∧
     (∀ p, demoSmp.prev = some p →
      run_mcmc natPrng demoSmp none (2 : ℚ) false ((1 : ℕ) : ℚ) none true =
        run_mcmc natPrng demoSmp (some p) (2 : ℚ) false ((1 : ℕ) : ℚ) none true) ∧
     (∃ out, sampleGen natPrng demoSmp demoState ((1 : ℕ) : ℚ) false
          ((1 : ℕ) : ℚ) none true = .ok out ∧
       out.yields ≠ [] ∧
       (∃ last, out.yields.getLast? = some last) ∧
       run_mcmc natPrng demoSmp (some demoState) ((1 : ℕ) : ℚ) false
           ((1 : ℕ) : ℚ) none true =
         .ok (out.yields.getLast?,
           { demoSmp with prev := out.yields.getLast?, backend := out.backend,
                          rngSeed := out.finalRng }))) :=
  ⟨⟨by decide, by decide, by decide, by decide, by decide⟩,
   c3_run_mcmc_resume natPrng demoSmp demoState [.fin 0, .fin 0] false true 1 2 1
     (by decide) (by decide) (by decide) (by decide) (by decide) (by decide)⟩

/-- How the unpack phase treats NaN: whenever the unpacked log-probability
vector contains a NaN the phase fails with the invalid-log-prob error, and
when it contains none (for a nonempty result list) the phase succeeds and
returns that vector unchanged. -/
theorem unpackPhase_nan_parts (smp : Sampler) (results : List PyVal)
    (vs : List FVal) (hvs : unpackLogProb results = .ok vs) :
    (vs.any FVal.isnan = true →
      unpackPhase smp results = .error .invalidLogProb) ∧
    (vs.any FVal.isnan = false → vs ≠ [] →
      ∃ b, unpackPhase smp results = .ok (vs, b)) := by
  unfold unpackLogProb at hvs
  unfold unpackPhase
  cases hseq : unpackSeq results with
  | ok lp0 =>
    rw [hseq] at hvs
    simp only [Except.ok.injEq] at hvs
    subst hvs
    constructor
    · intro hnanv
      cases hd : smp.blobs_dtype with
      | some d => simp [hd, hnanv]
      | none =>
        cases hres : results with
        | nil =>
          rw [hres] at hseq
          simp only [unpackSeq, Except.ok.injEq] at hseq
          rw [← hseq] at hnanv
          simp at hnanv
        | cons r rs => simp [hd, hres, hnanv]
    · intro hnanv hne
      cases hd : smp.blobs_dtype with
      | some d =>
        refine ⟨some ⟨d, (blobShape (results.map pyTail)).map squeezeInner⟩, ?_⟩
        simp [hd, hnanv]
      | none =>
        cases hres : results with
        | nil =>
          rw [hres] at hseq
          simp only [unpackSeq, Except.ok.injEq] at hseq
          rw [← hseq] at hne
          simp at hne
        | cons r rs =>
          refine ⟨some ⟨smp.inferDtype (pyTail r),
            (blobShape ((r :: rs).map pyTail)).map squeezeInner⟩, ?_⟩
          simp [hd, hres, hnanv]
  | error e =>
    rw [hseq] at hvs
    have hvs2 : unpackScalar results = Except.ok vs := hvs
    constructor
    · intro hnanv
      simp [hvs2, hnanv]
    · intro hnanv hne
      exact ⟨none, by simp [hvs2, hnanv]⟩

/-- C4: NaN log-probabilities are rejected, infinities are not.  If the
initial state carries a NaN log-probability, or carries none and
`compute_log_prob` rejects the computed vector, `sample` fails with the
invalid-log-prob error before yielding anything; and `compute_log_prob`
itself fails with that error exactly when the unpacked log-probability
vector contains a NaN, returning infinite values without complaint. -/
theorem c4_nan_log_prob (prng : Prng) (smp : Sampler) :
    (∀ (st : EState) (lp : List FVal) (iterations : ℚ) (tuneFlag : Bool)
        (thin_by : ℚ) (store : Bool),
      shapeOkB smp st.coords = true →
      st.log_prob = some lp →
      lp.length = smp.nwalkers →
      lp.any FVal.isnan = true →
      sampleGen prng smp st iterations tuneFlag thin_by none store =
        .error .invalidLogProb) ∧
    (∀ (st : EState) (iterations : ℚ) (tuneFlag : Bool) (thin_by : ℚ)
        (store : Bool),
      shapeOkB smp st.coords = true →
      st.log_prob = none →
      compute_log_prob smp st.coords = .error .invalidLogProb →
      sampleGen prng smp st iterations tuneFlag thin_by none store =
        .error .invalidLogProb) ∧
    (∀ (p : List (List FVal)) (vs : List FVal),
      anyInfCoord p = false → anyNaNCoord p = false →
      unpackLogProb (runEvaluator smp p) = .ok vs →
      ((vs.any FVal.isnan = true →
        compute_log_prob smp p = .error .invalidLogProb) ∧
       (vs.any FVal.isnan = false → vs ≠ [] →
        ∃ b, compute_log_prob smp p = .ok (vs, b)))) := by
  refine ⟨?_, ?_, ?_⟩
  · intro st lp iterations tuneFlag thin_by store h1 h2 h3 h4
    obtain ⟨coords, lpOpt, bl, rs⟩ := st
    cases h2
    unfold sampleGen
    rw [if_pos h1]
    simp only [h3, beq_self_eq_true, if_true, h4]
  · intro st iterations tuneFlag thin_by store h1 h2 h3
    obtain ⟨coords, lpOpt, bl, rs⟩ := st
    cases h2
    unfold sampleGen
    rw [if_pos h1]
    simp only [h3]
  · intro p vs h1 h2 h3
    have h := unpackPhase_nan_parts smp (runEvaluator smp p) vs h3
    simpa [compute_log_prob, h1, h2] using h

/-- A state carrying a NaN log-probability. -/
def demoStateNan : EState :=
  ⟨[[.fin 0], [.fin 1]], some [.nan, .fin 0], none, some (.valid 5)⟩

/-- A state without log-probabilities, forcing `sample` to compute them. -/
def demoStateNoLp : EState :=
  ⟨[[.fin 0], [.fin 1]], none, none, some (.valid 5)⟩

/-- A sampler whose evaluator returns NaN for every walker. -/
def demoSmpNan : Sampler :=
  { demoSmp with fn := fun _ => .num .nan }

/-- A sampler whose evaluator returns negative infinity for every walker. -/
def demoSmpInf : Sampler :=
  { demoSmp with fn := fun _ => .num .ninf }

/-- C4 witness: a supplied NaN log-probability aborts `sample`; a NaN-
producing evaluator aborts `sample` via `compute_log_prob`; a negative-
infinity-producing evaluator passes through without error. -/
theorem c4_nan_log_prob_witness :
    (shapeOkB demoSmp demoStateNan.coords = true ∧
     demoStateNan.log_prob = some [.nan, .fin 0] ∧
     [FVal.nan, .fin 0].length = demoSmp.nwalkers ∧
     [FVal.nan, .fin 0].any FVal.isnan = true) ∧
    sampleGen natPrng demoSmp demoStateNan 1 false 1 none true =
      .error .invalidLogProb ∧
    (demoStateNoLp.log_prob = none ∧
     compute_log_prob demoSmpNan demoStateNoLp.coords = .error .invalidLogProb) ∧
    sampleGen natPrng demoSmpNan demoStateNoLp 1 false 1 none true =
      .error .invalidLogProb ∧
    (unpackLogProb (runEvaluator demoSmpInf [[.fin 0], [.fin 1]]) =
      .ok [.ninf, .ninf] ∧
     [FVal.ninf, .ninf].any FVal.isnan = false) ∧
    (∃ b, compute_log_prob demoSmpInf [[.fin 0], [.fin 1]] =
      .ok ([.ninf, .ninf], b)) :=
  ⟨⟨by decide, by decide, by decide, by decide⟩,
   (c4_nan_log_prob natPrng demoSmp).1 demoStateNan [.nan, .fin 0] 1 false 1 true
     (by decide) (by decide) (by decide) (by decide),
   ⟨by decide, by decide⟩,
   (c4_nan_log_prob natPrng demoSmpNan).2.1 demoStateNoLp 1 false 1 true
     (by decide) (by decide) (by decide),
   ⟨by decide, by decide⟩,
   ((c4_nan_log_prob natPrng demoSmpInf).2.2 [[.fin 0], [.fin 1]]
     [.ninf, .ninf] (by decide) (by decide) (by decide)).2 (by decide)
     (by decide)⟩

/-- The unpack phase can fail with a NaN-log-prob error or an escaped Python
exception, but never with the input-side invalid-parameter error. -/
theorem unpackPhase_ne_invalidParam (smp : Sampler) (results : List PyVal)
    (e : Bool) : unpackPhase smp results ≠ .error (.invalidParam e) := by
  intro h
  unfold unpackPhase at h
  repeat' split at h
  all_goals try simp_all
  all_goals (cases hb : List.map pyTail results <;> simp_all)

/-- C5: `compute_log_prob` fails with the invalid-parameter error exactly
when some input coordinate entry is infinite or NaN; this input-side guard
runs before the user's log-density function, so in that case the result does
not depend on the evaluator functions the sampler carries. -/
theorem c5_invalid_param_iff (smp : Sampler) (p : List (List FVal)) :
    ((∃ e, compute_log_prob smp p = .error (.invalidParam e)) ↔
      (anyInfCoord p || anyNaNCoord p) = true) ∧
    (∀ f fv dt, (anyInfCoord p || anyNaNCoord p) = true →
      compute_log_prob { smp with fn := f, fnVec := fv, inferDtype := dt } p =
        compute_log_prob smp p) := by
  constructor
  · constructor
    · rintro ⟨e, hE⟩
      by_contra hbad
      simp only [Bool.or_eq_true, not_or, Bool.not_eq_true] at hbad
      obtain ⟨hinf, hnan⟩ := hbad
      unfold compute_log_prob at hE
      simp only [hinf, hnan, Bool.false_eq_true, if_false] at hE
      exact unpackPhase_ne_invalidParam smp _ e hE
    · intro hbad
      unfold compute_log_prob
      cases hinf : anyInfCoord p with
      | true => exact ⟨true, by simp [hinf]⟩
      | false =>
        have hnan : anyNaNCoord p = true := by
          rw [hinf] at hbad
          simpa using hbad
        exact ⟨false, by simp [hinf, hnan]⟩
  · intro f fv dt hbad
    unfold compute_log_prob
    cases hinf : anyInfCoord p with
    | true => simp [hinf]
    | false =>
      have hnan : anyNaNCoord p = true := by
        rw [hinf] at hbad
        simpa using hbad
      simp [hinf, hnan]

/-- C5 witness: an infinite coordinate triggers the invalid-parameter error
under two different evaluators, a clean batch never does. -/
theorem c5_invalid_param_iff_witness :
    ((∃ e, compute_log_prob demoSmp [[.fin 0], [.inf]] =
      .error (.invalidParam e)) ↔
      (anyInfCoord [[.fin 0], [.inf]] || anyNaNCoord [[.fin 0], [.inf]]) = true) ∧
    ((anyInfCoord [[.fin 0], [.inf]] || anyNaNCoord [[.fin 0], [.inf]]) = true ∧
     compute_log_prob
        { demoSmp with fn := fun _ => .num .nan, fnVec := fun _ => [],
                       inferDtype := fun _ => .obj } [[.fin 0], [.inf]] =
       compute_log_prob demoSmp [[.fin 0], [.inf]]) ∧
    ((∃ e, compute_log_prob demoSmp [[.fin 0], [.fin 1]] =
      .error (.invalidParam e)) ↔
      (anyInfCoord [[.fin 0], [.fin 1]] || anyNaNCoord [[.fin 0], [.fin 1]]) = true) :=
  ⟨(c5_invalid_param_iff demoSmp [[.fin 0], [.inf]]).1,
   ⟨by decide,
    (c5_invalid_param_iff demoSmp [[.fin 0], [.inf]]).2
      (fun _ => .num .nan) (fun _ => []) (fun _ => .obj) (by decide)⟩,
   (c5_invalid_param_iff demoSmp [[.fin 0], [.fin 1]]).1⟩

theorem unpackScalar_nums : ∀ vs : List FVal,
    unpackScalar (vs.map PyVal.num) = .ok vs
  | [] => rfl
  | v :: vt => by
    simp [List.map, unpackScalar, pyFloat, unpackScalar_nums vt]

theorem unpackSeq_seqForm : ∀ (heads : List FVal) (tails : List (List PyVal)),
    heads.length = tails.length →
    unpackSeq (List.zipWith (fun h t => PyVal.list (.num h :: t)) heads tails) =
      .ok heads := by
  intro heads
  induction heads with
  | nil => intro tails h; simp [unpackSeq]
  | cons a as ih =>
    intro tails h
    cases tails with
    | nil => simp at h
    | cons t ts =>
      simp [List.zipWith, unpackSeq, pyIndex0, pyFloat, ih ts (by simpa using h)]

theorem map_pyTail_seqForm : ∀ (heads : List FVal) (tails : List (List PyVal)),
    heads.length = tails.length →
    (List.zipWith (fun h t => PyVal.list (.num h :: t)) heads tails).map pyTail =
      tails := by
  intro heads
  induction heads with
  | nil => intro tails h; cases tails with
    | nil => rfl
    | cons t ts => simp at h
  | cons a as ih =>
    intro tails h
    cases tails with
    | nil => simp at h
    | cons t ts =>
      simp [List.zipWith, pyTail, ih ts (by simpa using h)]

/-- The unpack phase on purely scalar unit results: the sequence
interpretation raises `TypeError`, the fallback succeeds, and the blob slot
stays absent. -/
theorem unpackPhase_scalars (smp : Sampler) (vs : List FVal) (hne : vs ≠ []) :
    unpackPhase smp (vs.map PyVal.num) =
      if vs.any FVal.isnan then .error .invalidLogProb else .ok (vs, none) := by
  cases vs with
  | nil => exact absurd rfl hne
  | cons v vt =>
    unfold unpackPhase
    rw [show unpackSeq ((v :: vt).map PyVal.num) = .error .typeError from rfl,
      unpackScalar_nums]

/-- The unpack phase on uniformly sequence-shaped unit results
`(log_prob, blob_fields...)`: the per-walker heads become the
log-probability vector and the tails the blob batch, whose dtype is the
configured one or the one inferred from the first walker's blob, and whose
shape drops every singleton axis after the walker axis. -/
theorem unpackPhase_seqs (smp : Sampler) (heads : List FVal)
    (tails : List (List PyVal)) (hlen : heads.length = tails.length)
    (hne : tails ≠ []) :
    unpackPhase smp
        (List.zipWith (fun h t => PyVal.list (.num h :: t)) heads tails) =
      if heads.any FVal.isnan then .error .invalidLogProb
      else .ok (heads,
        some ⟨(match smp.blobs_dtype with
               | some d => d
               | none => smp.inferDtype (tails.headD [])),
              (blobShape tails).map squeezeInner⟩) := by
  unfold unpackPhase
  rw [unpackSeq_seqForm heads tails hlen, map_pyTail_seqForm heads tails hlen]
  cases hd : smp.blobs_dtype with
  | some d => rfl
  | none =>
    cases tails with
    | nil => exact absurd rfl hne
    | cons t ts => rfl

/-- C6 (amended): when every unit result is a bare scalar, `compute_log_prob`
returns `blobs = None`; when each unit result is a nonempty sequence
`(log_prob, extra_fields...)`, it returns a blob batch with one entry per
walker whose dtype is the explicitly configured blob dtype or, absent that,
the dtype inferred from the first walker's blob — but in whose shape *every*
singleton axis after the leading walker axis is squeezed away, not only the
trailing ones. -/
theorem c6_blob_detection (smp : Sampler) (p : List (List FVal)) :
    (∀ vs, anyInfCoord p = false → anyNaNCoord p = false →
      runEvaluator smp p = vs.map PyVal.num →
      vs ≠ [] → vs.any FVal.isnan = false →
      compute_log_prob smp p = .ok (vs, none)) ∧
    (∀ heads tails, anyInfCoord p = false → anyNaNCoord p = false →
      heads.length = tails.length → tails ≠ [] →
      runEvaluator smp p =
        List.zipWith (fun h t => PyVal.list (.num h :: t)) heads tails →
      heads.any FVal.isnan = false →
      compute_log_prob smp p =
        .ok (heads,
          some ⟨(match smp.blobs_dtype with
                 | some d => d
                 | none => smp.inferDtype (tails.headD [])),
                (blobShape tails).map squeezeInner⟩)) := by
  constructor
  · intro vs hinf hnan hres hne hnanv
    unfold compute_log_prob
    rw [hres] at *
    simp only [hinf, hnan, Bool.false_eq_true, if_false]
    rw [hres, unpackPhase_scalars smp vs hne, hnanv]
    rfl
  · intro heads tails hinf hnan hlen hne hres hnanv
    unfold compute_log_prob
    simp only [hinf, hnan, Bool.false_eq_true, if_false]
    rw [hres, unpackPhase_seqs smp heads tails hlen hne, hnanv]
    rfl

/-- The squeeze rule in the specification's wording, for comparison with the
implementation's `squeezeInner`: remove only the trailing singleton axes of
the batch shape. -/
def specSqueezeTrailing : List ℕ → List ℕ
  | [] => []
  | s0 :: rest => s0 :: (rest.reverse.dropWhile (fun d => d == 1)).reverse

/-- A two-element blob field. -/
def pairBlob : PyVal := PyVal.list [PyVal.num (.fin 2), PyVal.num (.fin 3)]

/-- A unit result of the form `(log_prob, [a, b])`. -/
def pairResult : PyVal := PyVal.list [PyVal.num (.fin 1), pairBlob]

/-- A sampler whose evaluator returns `(log_prob, [a, b])` for every walker:
one blob field holding a two-element list, so the full blob batch has numpy
shape `(2, 1, 2)` — a singleton axis in non-trailing position. -/
def demoSmpPair : Sampler :=
  { demoSmp with fn := fun _ => pairResult }

/-- C6 counterexample: for the blob batch of shape `(2, 1, 2)` the code
squeezes the middle (non-trailing) singleton axis and stores shape `(2, 2)`,
while squeezing only trailing singleton axes — as the claim states — would
leave `(2, 1, 2)` unchanged. -/
theorem c6_squeeze_counterexample :
    (compute_log_prob demoSmpPair [[.fin 0], [.fin 1]]).map
        (fun r => r.2.map BlobArr.shape) = .ok (some (some [2, 2])) ∧
    blobShape
        (List.map pyTail (runEvaluator demoSmpPair [[.fin 0], [.fin 1]])) =
      some [2, 1, 2] ∧
    specSqueezeTrailing [2, 1, 2] = [2, 1, 2] ∧
    squeezeInner [2, 1, 2] = [2, 2] ∧
    ([2, 2] : List ℕ) ≠ [2, 1, 2] :=
  ⟨by decide, by decide, by decide, by decide, by decide⟩

/-- C6 witness: the scalar-returning `demoSmp` leaves blobs absent, and the
pair-returning `demoSmpPair` produces a per-walker blob batch with the
inferred dtype and the squeezed shape. -/
theorem c6_blob_detection_witness :
    (anyInfCoord [[.fin 0], [.fin 1]] = false ∧
     anyNaNCoord [[.fin 0], [.fin 1]] = false ∧
     runEvaluator demoSmp [[.fin 0], [.fin 1]] =
       [FVal.fin 0, .fin 0].map PyVal.num ∧
     ([FVal.fin 0, .fin 0] : List FVal) ≠ [] ∧
     [FVal.fin 0, .fin 0].any FVal.isnan = false) ∧
    compute_log_prob demoSmp [[.fin 0], [.fin 1]] =
      .ok ([.fin 0, .fin 0], none) ∧
    ([FVal.fin 1, .fin 1].length =
      ([[pairBlob], [pairBlob]] : List (List PyVal)).length ∧
     runEvaluator demoSmpPair [[.fin 0], [.fin 1]] =
       List.zipWith (fun h t => PyVal.list (.num h :: t)) [FVal.fin 1, .fin 1]
         [[pairBlob], [pairBlob]]) ∧
    compute_log_prob demoSmpPair [[.fin 0], [.fin 1]] =
      .ok ([.fin 1, .fin 1],
        some ⟨(match demoSmpPair.blobs_dtype with
               | some d => d
               | none => demoSmpPair.inferDtype
                   (([[pairBlob], [pairBlob]] : List (List PyVal)).headD [])),
              (blobShape [[pairBlob], [pairBlob]]).map squeezeInner⟩) :=
  ⟨⟨by decide, by decide, by rfl, by decide, by decide⟩,
   (c6_blob_detection demoSmp [[.fin 0], [.fin 1]]).1 [.fin 0, .fin 0]
     (by decide) (by decide) (by rfl) (by decide) (by decide),
   ⟨by decide, by rfl⟩,
   (c6_blob_detection demoSmpPair [[.fin 0], [.fin 1]]).2 [.fin 1, .fin 1]
     [[pairBlob], [pairBlob]]
     (by decide) (by decide) (by decide) (List.cons_ne_nil _ _) (by rfl)
     (by decide)⟩

/-- C7 counterexample: on a freshly reset backend (iteration 0, accepted
counts 0) the `acceptance_fraction` division is `0 / 0.0`, whose numpy value
is NaN — not a value in `[0, 1]`. -/
theorem c7_iteration_zero_counterexample :
    demoSmp.backend.iteration = 0 ∧
    acceptance_fraction demoSmp = [.nan, .nan] ∧
    FVal.inUnit01 .nan = false := by
  refine ⟨by decide, by decide, by decide⟩

/-- C7 (amended): `acceptance_fraction` equals the elementwise quotient
`accepted / iteration`, and every entry lies in `[0, 1]` provided at least
one step has been stored and each walker's accepted count is at most the
iteration count (the invariant `save_step` maintains); at iteration 0 the
division instead produces NaN, outside `[0, 1]`. -/
theorem c7_acceptance_fraction (smp : Sampler)
    (hiter : 1 ≤ smp.backend.iteration)
    (hacc : ∀ a ∈ smp.backend.accepted, a ≤ smp.backend.iteration) :
    acceptance_fraction smp =
      smp.backend.accepted.map
        (fun a => .fin ((a : ℚ) / (smp.backend.iteration : ℚ))) ∧
    ∀ v ∈ acceptance_fraction smp, v.inUnit01 = true := by
  constructor
  · unfold acceptance_fraction
    apply List.map_congr_left
    intro a ha
    unfold npDivNat
    rw [if_neg (by omega)]
  · intro v hv
    unfold acceptance_fraction at hv
    rw [List.mem_map] at hv
    obtain ⟨a, ha, hva⟩ := hv
    subst hva
    unfold npDivNat
    rw [if_neg (by omega)]
    simp only [FVal.inUnit01, decide_eq_true_eq]
    have hpos : (0 : ℚ) < (smp.backend.iteration : ℚ) :=
      Nat.cast_pos.mpr (by omega)
    constructor
    · positivity
    · rw [div_le_one hpos]
      exact_mod_cast hacc a ha

/-- A sampler whose backend has stored one step with one accepted walker. -/
def demoSmp7 : Sampler :=
  { demoSmp with backend := ⟨2, 1, 1, [1, 0], 1, [], none⟩ }

/-- C7 witness at a backend with `iteration = 1`, `accepted = [1, 0]`. -/
theorem c7_acceptance_fraction_witness :
    (1 ≤ demoSmp7.backend.iteration ∧
     ∀ a ∈ demoSmp7.backend.accepted, a ≤ demoSmp7.backend.iteration) ∧
    (acceptance_fraction demoSmp7 =
      demoSmp7.backend.accepted.map
        (fun a => .fin ((a : ℚ) / (demoSmp7.backend.iteration : ℚ))) ∧
     ∀ v ∈ acceptance_fraction demoSmp7, v.inUnit01 = true) :=
  ⟨⟨by decide, by decide⟩,
   c7_acceptance_fraction demoSmp7 (by decide) (by decide)⟩

/-- C8 (amended): the thinning check applies Python `int()` truncation before
testing positivity: `sample` fails with the invalid-thinning error exactly
when truncation toward zero of the supplied factor is at most 0 — so 0, -1
and 0.5 are rejected, while a non-integer such as 1.5 is silently truncated
to 1 and accepted.  This holds for `thin_by` and for the deprecated `thin`
alike. -/
theorem c8_thinning_truncation (prng : Prng) (smp : Sampler) (st : EState)
    (lp : List FVal) (iterations : ℚ) (tuneFlag store : Bool) (t tb : ℚ)
    (hshape : shapeOkB smp st.coords = true)
    (hlp : st.log_prob = some lp)
    (hlen : lp.length = smp.nwalkers)
    (hnan : lp.any FVal.isnan = false) :
    (sampleGen prng smp st iterations tuneFlag t none store =
        .error .invalidThinning ↔ pyInt t ≤ 0) ∧
    (sampleGen prng smp st iterations tuneFlag tb (some t) store =
        .error .invalidThinning ↔ pyInt t ≤ 0) := by
  obtain ⟨coords, lpOpt, bl, rs⟩ := st
  cases hlp
  have hshape2 : shapeOkB smp coords = true := hshape
  unfold sampleGen
  constructor
  · simp only [hshape2, if_true, hlen, beq_self_eq_true, hnan,
      Bool.false_eq_true, if_false]
    by_cases h : pyInt t ≤ 0
    · simp [h]
    · simp [h, runLoop]
  · simp only [hshape2, if_true, hlen, beq_self_eq_true, hnan,
      Bool.false_eq_true, if_false]
    by_cases h : pyInt t ≤ 0
    · simp [h]
    · simp [h, runLoop]

/-- C8 counterexample: `thin_by = 1.5` is not a positive integer, yet
`sample` raises no invalid-thinning error — `int()` truncates the factor to
1 and the run completes with one proposal round per iteration. -/
theorem c8_non_integer_thin_counterexample :
    (mkRat 3 2 : ℚ) = 3 / 2 ∧
    pyInt (mkRat 3 2) = 1 ∧
    sampleGen natPrng demoSmp demoState 1 false (mkRat 3 2) none true ≠
      .error .invalidThinning ∧
    (sampleGen natPrng demoSmp demoState 1 false (mkRat 3 2) none true).map
        SampleOut.rounds = .ok 1 := by
  refine ⟨by norm_num, by decide, by decide, by decide⟩

/-- C8 witness: an invalid factor 0 raises the error through both the
`thin_by` and the deprecated `thin` argument. -/
theorem c8_thinning_truncation_witness :
    (shapeOkB demoSmp demoState.coords = true ∧
     demoState.log_prob = some [.fin 0, .fin 0] ∧
     [FVal.fin 0, .fin 0].length = demoSmp.nwalkers ∧
     [FVal.fin 0, .fin 0].any FVal.isnan = false) ∧
    ((sampleGen natPrng demoSmp demoState 1 false 0 none true =
        .error .invalidThinning ↔ pyInt 0 ≤ 0) ∧
     (sampleGen natPrng demoSmp demoState 1 false 1 (some 0) true =
        .error .invalidThinning ↔ pyInt 0 ≤ 0)) :=
  ⟨⟨by decide, by decide, by decide, by decide⟩,
   c8_thinning_truncation natPrng demoSmp demoState [.fin 0, .fin 0] 1 false
     true 0 1 (by decide) (by decide) (by decide) (by decide)⟩

/-- A concrete wrapped user function that raises (error code 3) exactly on
the empty input. -/
def demoWrapper : FunctionWrapper :=
  ⟨fun x => if x = [] then .error 3 else .ok (.num (.fin 1)), [2], [(0, 5)]⟩

/-- C9: restoring the private stream from a malformed or missing snapshot
fails silently, leaving the stream unchanged, while a valid snapshot is
installed; and the wrapped user function logs the offending parameters (with
the bound extra arguments) and re-raises its exception unchanged, never
swallowing it. -/
theorem c9_silent_rng_and_reraise :
    (∀ r t, setRandomState r (some (.garbage t)) = r) ∧
    (∀ r, setRandomState r none = r) ∧
    (∀ r s, setRandomState r (some (.valid s)) = s) ∧
    (∀ (w : FunctionWrapper) (x : List FVal) (e : ℕ),
      w.f x = .error e → w.call x = (.error e, [⟨x, w.args, w.kwargs⟩])) ∧
    (∀ (w : FunctionWrapper) (x : List FVal) (v : PyVal),
      w.f x = .ok v → w.call x = (.ok v, [])) := by
  refine ⟨fun r t => rfl, fun r => rfl, fun r s => rfl, ?_, ?_⟩
  · intro w x e h
    unfold FunctionWrapper.call
    rw [h]
  · intro w x v h
    unfold FunctionWrapper.call
    rw [h]

/-- C9 witness: a garbage snapshot and a missing snapshot leave the stream at
7; a valid snapshot moves it to 4; `demoWrapper` logs and re-raises error 3
on the empty input and logs nothing on success. -/
theorem c9_silent_rng_and_reraise_witness :
    setRandomState 7 (some (.garbage 9)) = 7 ∧
    setRandomState 7 none = 7 ∧
    setRandomState 7 (some (.valid 4)) = 4 ∧
    (demoWrapper.f [] = .error 3 ∧
     demoWrapper.call [] = (.error 3, [⟨[], [2], [(0, 5)]⟩])) ∧
    (demoWrapper.f [.fin 0] = .ok (.num (.fin 1)) ∧
     demoWrapper.call [.fin 0] = (.ok (.num (.fin 1)), [])) :=
  ⟨c9_silent_rng_and_reraise.1 7 9,
   c9_silent_rng_and_reraise.2.1 7,
   c9_silent_rng_and_reraise.2.2.1 7 4,
   ⟨rfl, c9_silent_rng_and_reraise.2.2.2.1 demoWrapper [] 3 rfl⟩,
   ⟨rfl, c9_silent_rng_and_reraise.2.2.2.2 demoWrapper [.fin 0]
     (.num (.fin 1)) rfl⟩⟩

/-- C10: `__getstate__` hands back the sampler's own attribute dictionary
after nulling its `pool` entry, so pickling mutates the live sampler: the
returned dictionary and the post-call attribute dictionary are the same
value, the pool is gone from the live object, and every other attribute is
untouched — subsequent evaluator dispatch therefore sees `pool = None` and
falls back to the sequential path. -/
theorem c10_getstate_pool_mutation (smp : Sampler) :
    (getstate smp).1 = (getstate smp).2 ∧
    (getstate smp).2.pool = none ∧
    (getstate smp).2.nwalkers = smp.nwalkers ∧
    (getstate smp).2.ndim = smp.ndim ∧
    (getstate smp).2.vectorize = smp.vectorize ∧
    (getstate smp).2.blobs_dtype = smp.blobs_dtype ∧
    (getstate smp).2.moves = smp.moves ∧
    (getstate smp).2.weights = smp.weights ∧
    (getstate smp).2.backend = smp.backend ∧
    (getstate smp).2.rngSeed = smp.rngSeed ∧
    (getstate smp).2.prev = smp.prev ∧
    (getstate smp).2.fn = smp.fn ∧
    (getstate smp).2.fnVec = smp.fnVec ∧
    (getstate smp).2.inferDtype = smp.inferDtype :=
  ⟨rfl, rfl, rfl, rfl, rfl, rfl, rfl, rfl, rfl, rfl, rfl, rfl, rfl, rfl⟩

/-- A sampler that actually holds a pool handle. -/
def demoSmpPool : Sampler := { demoSmp with pool := some 1 }

/-- C10 witness at a sampler that actually holds a pool handle. -/
theorem c10_getstate_pool_mutation_witness :
    demoSmpPool.pool = some 1 ∧
    (getstate demoSmpPool).1 = (getstate demoSmpPool).2 ∧
    (getstate demoSmpPool).2.pool = none ∧
    (getstate demoSmpPool).2.rngSeed = demoSmpPool.rngSeed :=
  ⟨rfl,
   (c10_getstate_pool_mutation demoSmpPool).1,
   (c10_getstate_pool_mutation demoSmpPool).2.1,
   (c10_getstate_pool_mutation demoSmpPool).2.2.2.2.2.2.2.2.2.1⟩
